import Mathlib

set_option maxRecDepth 10000

/-!
Verification of the Risk Fusion & Escalation Engine of the
tamu-datathon-mcp repository.

The numeric code (`backend/models/risk_assessment.py`) is embedded over ℚ:
Python float arithmetic is idealised as exact rational arithmetic, and
every division that Python could perform on a zero denominator is modelled
explicitly (the embedding returns `none` exactly where Python would raise
`ZeroDivisionError`).  Metric dictionaries are embedded as structures whose
fields carry the values the Python code reads via `dict.get` (the `.get`
defaults only matter for absent keys and are recorded next to each field).
-/

namespace RiskEngine

/-- Spotify listening metrics, the keys read by
`RiskCalculator.calculate_spotify_score` (defaults when absent:
15, 15, 0, 0.5, 0.5, 0). -/
structure SpotifyMetrics where
  baseline_listening_hours : ℚ
  current_listening_hours : ℚ
  late_night_percentage : ℚ
  baseline_valence : ℚ
  current_valence : ℚ
  repeat_listening_percentage : ℚ
deriving DecidableEq

/-- Calendar metrics, the keys read by
`RiskCalculator.calculate_calendar_score` and
`generate_risk_explanation` (defaults when absent: 8, 8, 0, 0, 5, 5). -/
structure CalendarMetrics where
  baseline_social_events : ℚ
  current_social_events : ℚ
  declined_invitation_rate : ℚ
  declined_invitations_count : ℚ
  baseline_unique_contacts : ℚ
  current_unique_contacts : ℚ
deriving DecidableEq

/-- Optional baseline data; `calculate_baseline_risk` reads
`historical_risk` (default 10). A missing/empty dict is modelled as
`none` on the `Option` wrapping this structure. -/
structure BaselineData where
  historical_risk : ℚ
deriving DecidableEq

/-- Weight constant `RiskCalculator.SPOTIFY_WEIGHT = 0.4`. -/
def SPOTIFY_WEIGHT : ℚ := 0.4

/-- Weight constant `RiskCalculator.CALENDAR_WEIGHT = 0.5`. -/
def CALENDAR_WEIGHT : ℚ := 0.5

/-- Weight constant `RiskCalculator.BASELINE_WEIGHT = 0.1`. -/
def BASELINE_WEIGHT : ℚ := 0.1

/-- Embedding of `RiskCalculator.calculate_spotify_score`
(risk_assessment.py lines 100-147).  Each `score +=` of the source is one
`let` step; guards (`baseline_hours > 0`, `valence_decline > 0`) are kept
exactly, so no division by zero can occur here. -/
def calculate_spotify_score (m : SpotifyMetrics) : ℚ :=
  let score : ℚ := 0
  let score :=
    if m.baseline_listening_hours > 0 then
      let r := m.current_listening_hours / m.baseline_listening_hours
      if r > 2 then score + 37.5
      else if r > 1 then score + (r - 1) * 37.5
      else score
    else score
  let score := score + min 25 (m.late_night_percentage / 50 * 25)
  let score :=
    if m.baseline_valence - m.current_valence > 0 then
      score + min 25 ((m.baseline_valence - m.current_valence) / 0.3 * 25)
    else score
  let score := score + min 12.5 (m.repeat_listening_percentage / 40 * 12.5)
  min 100 score

/-- Embedding of `RiskCalculator.calculate_calendar_score`
(risk_assessment.py lines 149-188). -/
def calculate_calendar_score (m : CalendarMetrics) : ℚ :=
  let score : ℚ := 0
  let score :=
    if m.baseline_social_events > 0 then
      let d := (m.baseline_social_events - m.current_social_events) /
        m.baseline_social_events
      score + min 50 (d * 66.67)
    else score
  let score := score + min 30 (m.declined_invitation_rate / 50 * 30)
  let score :=
    if m.baseline_unique_contacts > 0 then
      let d := (m.baseline_unique_contacts - m.current_unique_contacts) /
        m.baseline_unique_contacts
      score + min 20 (d / 0.5 * 20)
    else score
  min 100 score

/-- Embedding of `RiskCalculator.calculate_baseline_risk`
(risk_assessment.py lines 190-202): a falsy (absent or empty) dict gives
10.0, otherwise `historical_risk` clamped to [0,100]. -/
def calculate_baseline_risk (b : Option BaselineData) : ℚ :=
  match b with
  | none => 10
  | some d => min 100 (max 0 d.historical_risk)

/-- Embedding of `RiskCalculator.get_risk_level`
(risk_assessment.py lines 262-276): first entry of `RISK_CATEGORIES`
(insertion order low, mild, moderate, high) whose inclusive interval
contains the score, else "unknown". -/
def get_risk_level (score : ℚ) : String :=
  if 0 ≤ score ∧ score ≤ 25 then "low"
  else if 26 ≤ score ∧ score ≤ 50 then "mild"
  else if 51 ≤ score ∧ score ≤ 75 then "moderate"
  else if 76 ≤ score ∧ score ≤ 100 then "high"
  else "unknown"

/-- Python `round` rounds half to even.  `rhe x` is the integer Python
`round(x)` (and `int(round(x))`) returns for a value `x`. -/
def rhe (x : ℚ) : ℤ :=
  if x - ⌊x⌋ < 1 / 2 then ⌊x⌋
  else if x - ⌊x⌋ > 1 / 2 then ⌊x⌋ + 1
  else if ⌊x⌋ % 2 = 0 then ⌊x⌋ else ⌊x⌋ + 1

/-- Python `round(x, 2)`: round half to even at two decimal places. -/
def round2 (x : ℚ) : ℚ := (rhe (100 * x) : ℚ) / 100

/-- One human-readable explanation statement.  The source emits formatted
strings; the embedding keeps each statement as a constructor carrying the
numeric values interpolated into that string, so that which statements are
emitted, their order and their payloads are preserved while Python float
formatting is abstracted. -/
inductive Statement where
  | listeningSpike (baseline_hours current_hours : ℚ)
  | lateNight (pct : ℚ)
  | moodShift (baseline_valence current_valence : ℚ)
  | repeatListening (pct : ℚ)
  | socialDecline (decline_pct baseline_events current_events : ℚ)
  | declinedInvitations (count : ℚ)
  | contactReduction (baseline_contacts current_contacts : ℚ)
  | noPatterns
deriving DecidableEq

/-- Factors breakdown built by `calculate_risk`
(risk_assessment.py lines 245-250). -/
structure RiskFactors where
  spotify_score : ℚ
  calendar_score : ℚ
  baseline_score : ℚ
  total_score : ℚ
deriving DecidableEq

/-- Result dictionary of `RiskCalculator.calculate_risk`
(risk_assessment.py lines 255-260). -/
structure RiskResult where
  score : ℤ
  level : String
  factors : RiskFactors
  explanation : List Statement
deriving DecidableEq

/-- Embedding of `RiskCalculator.generate_risk_explanation`
(risk_assessment.py lines 278-353).  The seven triggers are evaluated in
source order; the fifth statement computes
`((baseline_events - current_events) / baseline_events) * 100` with no
zero guard, so when its trigger holds and `baseline_social_events = 0`
Python raises `ZeroDivisionError`: the embedding returns `none` there.
The `factors` argument is accepted and unused, as in the source. -/
def generate_risk_explanation (sm : SpotifyMetrics) (cm : CalendarMetrics)
    (factors : RiskFactors) : Option (List Statement) :=
  let _ := factors
  let e1 :=
    if sm.current_listening_hours > sm.baseline_listening_hours * 1.5 then
      [Statement.listeningSpike sm.baseline_listening_hours sm.current_listening_hours]
    else []
  let e2 :=
    if sm.late_night_percentage > 40 then
      [Statement.lateNight sm.late_night_percentage]
    else []
  let e3 :=
    if sm.baseline_valence - sm.current_valence > 0.2 then
      [Statement.moodShift sm.baseline_valence sm.current_valence]
    else []
  let e4 :=
    if sm.repeat_listening_percentage > 30 then
      [Statement.repeatListening sm.repeat_listening_percentage]
    else []
  if cm.current_social_events < cm.baseline_social_events ∧
      cm.baseline_social_events = 0 then
    none
  else
    let e5 :=
      if cm.current_social_events < cm.baseline_social_events then
        [Statement.socialDecline
          ((cm.baseline_social_events - cm.current_social_events) /
            cm.baseline_social_events * 100)
          cm.baseline_social_events cm.current_social_events]
      else []
    let e6 :=
      if cm.declined_invitations_count > 0 then
        [Statement.declinedInvitations cm.declined_invitations_count]
      else []
    let e7 :=
      if cm.current_unique_contacts < cm.baseline_unique_contacts * 0.7 then
        [Statement.contactReduction cm.baseline_unique_contacts
          cm.current_unique_contacts]
      else []
    let es := e1 ++ e2 ++ e3 ++ e4 ++ e5 ++ e6 ++ e7
    some (if es = [] then [Statement.noPatterns] else es)

/-- Embedding of `RiskCalculator.calculate_risk`
(risk_assessment.py lines 204-260): subscores, fixed-weight fusion, clamp
to [0,100], level lookup, two-decimal factors, integer rounding of the
reported score, and the explanation list (whose generation can raise, see
`generate_risk_explanation`). -/
def calculate_risk (sm : SpotifyMetrics) (cm : CalendarMetrics)
    (b : Option BaselineData) : Option RiskResult :=
  let spotify_score := calculate_spotify_score sm
  let calendar_score := calculate_calendar_score cm
  let baseline_score := calculate_baseline_risk b
  let total_score := spotify_score * SPOTIFY_WEIGHT +
    calendar_score * CALENDAR_WEIGHT + baseline_score * BASELINE_WEIGHT
  let total_score := min 100 (max 0 total_score)
  let risk_level := get_risk_level total_score
  let factors : RiskFactors :=
    ⟨round2 spotify_score, round2 calendar_score, round2 baseline_score,
      round2 total_score⟩
  match generate_risk_explanation sm cm factors with
  | none => none
  | some expl => some ⟨rhe total_score, risk_level, factors, expl⟩

/-- Neutral Spotify metrics substituted by `run_detection`
(detection_agent.py lines 251-258) when no Spotify token is present or the
analyzer fails. -/
def spotifyDefaultMetrics : SpotifyMetrics :=
  ⟨90, 90, 0, 0.5, 0.5, 0⟩

/-- Neutral calendar metrics substituted by `run_detection`
(detection_agent.py lines 304-311) when no calendar token is present or
the analyzer fails. -/
def calendarDefaultMetrics : CalendarMetrics :=
  ⟨8, 8, 0, 0, 5, 5⟩

/-- Embedding of `run_detection` (detection_agent.py lines 178-325) with
the two external analyzers abstracted as `Except` oracles: a present token
whose analysis succeeds yields the metrics the analyzer produced, a
failing call or an absent token is substituted with that source's neutral
defaults, and `calculate_risk` fuses the result. -/
def run_detection (calendar_token spotify_token : Option String)
    (b : Option BaselineData)
    (spotifyFetch : Except Unit SpotifyMetrics)
    (calendarFetch : Except Unit CalendarMetrics) : Option RiskResult :=
  let sm :=
    match spotify_token with
    | none => spotifyDefaultMetrics
    | some _ =>
      match spotifyFetch with
      | .ok m => m
      | .error _ => spotifyDefaultMetrics
  let cm :=
    match calendar_token with
    | none => calendarDefaultMetrics
    | some _ =>
      match calendarFetch with
      | .ok m => m
      | .error _ => calendarDefaultMetrics
  calculate_risk sm cm b

/-- Python `str.strip()`: drop leading and trailing whitespace. -/
def pyStrip (s : String) : String :=
  String.mk (((s.data.dropWhile Char.isWhitespace).reverse.dropWhile
    Char.isWhitespace).reverse)

/-- Does `pat` occur at the head of `s`? -/
def matchAt : List Char → List Char → Bool
  | _, [] => true
  | [], _ :: _ => false
  | c :: cs, p :: ps => c == p && matchAt cs ps

/-- Does `pat` occur anywhere in `s`? -/
def hasSubstrAux : List Char → List Char → Bool
  | [], pat => matchAt [] pat
  | s@(_ :: cs), pat => matchAt s pat || hasSubstrAux cs pat

/-- Substring containment on strings (Python `pat in s`). -/
def hasSubstr (s pat : String) : Bool := hasSubstrAux s.data pat.data

/-- The template text of `messages["low"]` in `generate_empathetic_message`
(intervention_agent.py lines 35-38), before `.strip()`. -/
def lowMessage : String :=
"
        Hey! I\x27ve been keeping an eye on your patterns, and things look pretty steady.
        You\x27re doing a great job maintaining your social connections. Keep it up!
        "

/-- The template text of `messages["moderate"]`
(intervention_agent.py lines 39-43), before `.strip()`. -/
def moderateMessage : String :=
"
        I noticed you\x27ve been spending a bit more time solo lately - totally normal,
        especially if you\x27re in the middle of exams or busy season. Just wanted to
        check in. How are you feeling about your social energy lately?
        "

/-- The template text of `messages["elevated"]`
(intervention_agent.py lines 44-50), before `.strip()`. -/
def elevatedMessage : String :=
"
        I\x27ve noticed some patterns that caught my attention. You used to hang out
        with people more often, and your recent listening history suggests you might
        be feeling a bit down. Not judging at all - we all go through phases. But I
        wanted to check in because I care about you. Would you be open to reconnecting
        with someone or trying a low-key social activity?
        "

/-- The template text of `messages["high"]`
(intervention_agent.py lines 51-57), before `.strip()`. -/
def highMessage : String :=
"
        Hey, I want to be real with you. I\x27ve noticed some concerning patterns -
        you\x27ve been isolating more than usual, and your mood seems to have shifted.
        I\x27m not here to diagnose anything, but as someone who cares about you, I think
        it might be time to reach out to someone. Whether that\x27s a friend, a counselor,
        or just getting out of the house for a bit. You don\x27t have to go through this alone.
        "

/-- The template text of `messages["critical"]`
(intervention_agent.py lines 58-68), before `.strip()`. -/
def criticalMessage : String :=
"
        I\x27m genuinely worried about you. The patterns I\x27m seeing suggest you might be
        struggling with serious isolation and possibly depression. Please, please reach
        out to someone you trust or a mental health professional. This is not something
        you should handle alone. There are people who care about you and want to help.

        Crisis Resources:
        - National Suicide Prevention Lifeline: 988
        - Crisis Text Line: Text HOME to 741741
        - TAMU Counseling & Psychological Services: (979) 845-4427
        "

/-- The dict lookup `messages.get(risk_level, messages["moderate"])` of
`generate_empathetic_message` (intervention_agent.py line 71). -/
def interventionMessages (risk_level : String) : String :=
  if risk_level = "low" then lowMessage
  else if risk_level = "moderate" then moderateMessage
  else if risk_level = "elevated" then elevatedMessage
  else if risk_level = "high" then highMessage
  else if risk_level = "critical" then criticalMessage
  else moderateMessage

/-- Embedding of `generate_empathetic_message`
(intervention_agent.py lines 20-71): template keyed by level, default
"moderate", stripped.  The `risk_score` and `user_context` arguments are
unused in the source body. -/
def generate_empathetic_message (risk_level : String) (risk_score : ℚ) :
    String :=
  let _ := risk_score
  pyStrip (interventionMessages risk_level)

/-- The `anxiety_mapping.get(risk_level, "medium")` lookup of
`recommend_activities` (intervention_agent.py lines 96-104). -/
def anxietyMapping (risk_level : String) : String :=
  if risk_level = "low" then "low"
  else if risk_level = "moderate" then "low"
  else if risk_level = "elevated" then "medium"
  else if risk_level = "high" then "high"
  else if risk_level = "critical" then "high"
  else "medium"

/-- Embedding of `recommend_activities`
(intervention_agent.py lines 74-119).  The external
`EventMatchingTool.recommend_events` call is abstracted as an `Except`
oracle `tool`; the returned `Bool` records whether the external tool was
invoked at all.  Python truthiness of `not interests or not location`
treats `None`, the empty list and the empty string as absent. -/
def recommend_activities {α : Type} (risk_level : String)
    (interests : Option (List String)) (location : Option String)
    (tool : Except Unit (List α)) : Bool × List α :=
  if interests.getD [] = [] ∨ location.getD "" = "" then (false, [])
  else
    let _ := anxietyMapping risk_level
    match tool with
    | .ok recs => (true, recs)
    | .error _ => (true, [])

/-- The level-keyed action-item table shared by
`generate_intervention_strategy` (intervention_agent.py lines 157-183) and
`run_intervention` (intervention_agent.py lines 230-255); any level
outside the five handled labels leaves the initial empty list. -/
def action_items_for (risk_level : String) : List String :=
  if risk_level = "low" ∨ risk_level = "moderate" then
    ["Continue maintaining your current social connections",
     "Consider trying one new social activity this week"]
  else if risk_level = "elevated" then
    ["Reach out to a friend you haven\x27t talked to in a while",
     "Join one small group activity (see recommendations below)",
     "Spend 10 minutes outside in a social space (coffee shop, park)"]
  else if risk_level = "high" then
    ["Text or call one person you trust today",
     "Schedule a low-pressure social activity within 3 days",
     "Consider talking to a counselor or therapist",
     "Join a structured group activity (less awkward than \x27just hanging out\x27)"]
  else if risk_level = "critical" then
    ["Call or text someone you trust RIGHT NOW",
     "Contact TAMU Counseling Services: (979) 845-4427",
     "Call National Suicide Prevention Lifeline: 988",
     "Go to a public place (don\x27t stay isolated)"]
  else []

/-- The risk-assessment dict consumed by the intervention orchestrator;
`level` and `score` are read with `.get` defaults "moderate" and 50.  The
`factors` entry is consumed only by the prompt string assembly, which the
embedding abstracts (see `PromptContext`). -/
structure Assessment where
  level : Option String
  score : Option ℚ
deriving DecidableEq

/-- Which prompt-construction path `run_intervention` takes for the
message generator (intervention_agent.py lines 270-297): the crisis
template `format_crisis_prompt` or the standard
`format_intervention_prompt` plus appended activity context.  The string
assembly of prompts.py is abstracted; the selected branch and the inputs
deciding it are retained. -/
inductive PromptContext where
  | crisis (risk_score : ℚ) (user_message : String)
  | standard (risk_score : ℚ) (user_message : String)
deriving DecidableEq

/-- True on the `format_crisis_prompt` branch. -/
def PromptContext.isCrisisPrompt : PromptContext → Bool
  | .crisis _ _ => true
  | .standard _ _ => false

/-- Final payload of `run_intervention`
(intervention_agent.py lines 354-361) and of
`generate_intervention_strategy` (lines 185-191), minus the
database-tracking id (the no-database path stores nothing). `α` is the
shape of the external recommender's activity records. -/
structure InterventionResult (α : Type) where
  risk_level : String
  risk_score : ℚ
  message : String
  activities : List α
  action_items : List String

/-- Payload of one `run_intervention` call together with the two
observable effects the claims are about: whether the external recommender
was invoked, and which prompt path was constructed. -/
structure InterventionRun (α : Type) where
  result : InterventionResult α
  toolInvoked : Bool
  prompt : PromptContext

/-- Python `x or default` for the optional user message. -/
def orDefault (s : Option String) (d : String) : String :=
  match s with
  | none => d
  | some v => if v = "" then d else v

/-- Embedding of `run_intervention` (intervention_agent.py lines
194-361).  External collaborators are abstracted as oracles: `tool` is
the `EventMatchingTool` call inside `recommend_activities`, `llm` the
Gemini call; an `llm` failure falls back to the deterministic template of
`generate_empathetic_message`.  The database path is the one with
`db_session = None`, which stores nothing and cannot fail. -/
def run_intervention {α : Type} (risk_assessment : Assessment)
    (user_interests : Option (List String)) (user_location : Option String)
    (user_message : Option String) (tool : Except Unit (List α))
    (llm : Except Unit String) : InterventionRun α :=
  let risk_level := risk_assessment.level.getD "moderate"
  let risk_score := risk_assessment.score.getD 50
  let acts :=
    if risk_level ≠ "critical" then
      recommend_activities risk_level user_interests user_location tool
    else (false, [])
  let action_items := action_items_for risk_level
  let um := orDefault user_message "User is checking in"
  let prompt :=
    if risk_score ≥ 76 then PromptContext.crisis risk_score um
    else PromptContext.standard risk_score um
  let llm_message :=
    match llm with
    | .ok m => m
    | .error _ => generate_empathetic_message risk_level risk_score
  { result :=
      { risk_level := risk_level, risk_score := risk_score,
        message := llm_message, activities := acts.2,
        action_items := action_items },
    toolInvoked := acts.1, prompt := prompt }

/-- Embedding of `generate_intervention_strategy`
(intervention_agent.py lines 122-191): same gating and action-item table
as `run_intervention`, but the message is always the deterministic
template.  Returns the payload together with the recommender-invoked
flag. -/
def generate_intervention_strategy {α : Type} (risk_assessment : Assessment)
    (user_interests : Option (List String)) (user_location : Option String)
    (tool : Except Unit (List α)) : InterventionResult α × Bool :=
  let risk_level := risk_assessment.level.getD "moderate"
  let risk_score := risk_assessment.score.getD 50
  let message := generate_empathetic_message risk_level risk_score
  let acts :=
    if risk_level ≠ "critical" then
      recommend_activities risk_level user_interests user_location tool
    else (false, [])
  let action_items := action_items_for risk_level
  (⟨risk_level, risk_score, message, acts.2, action_items⟩, acts.1)

/-- The fused composite before rounding: the weighted sum of
risk_assessment.py lines 232-236 after the clamp of line 239.  Used to
state what `calculate_risk` reports. -/
def fused_total (sm : SpotifyMetrics) (cm : CalendarMetrics)
    (b : Option BaselineData) : ℚ :=
  min 100 (max 0 (calculate_spotify_score sm * SPOTIFY_WEIGHT +
    calculate_calendar_score cm * CALENDAR_WEIGHT +
    calculate_baseline_risk b * BASELINE_WEIGHT))

/-- Explanation list as the spec (section 4.4) words it: seven candidate
statements evaluated in fixed order against the raw metrics, each
appended exactly when its trigger holds, with the single neutral
statement when none triggers.  Stated independently of the source
embedding `generate_risk_explanation` so the two can be compared. -/
def spec_explanation (sm : SpotifyMetrics) (cm : CalendarMetrics) :
    List Statement :=
  let l :=
    (if sm.current_listening_hours > sm.baseline_listening_hours * 1.5 then
      [Statement.listeningSpike sm.baseline_listening_hours
        sm.current_listening_hours] else []) ++
    (if sm.late_night_percentage > 40 then
      [Statement.lateNight sm.late_night_percentage] else []) ++
    (if sm.baseline_valence - sm.current_valence > 0.2 then
      [Statement.moodShift sm.baseline_valence sm.current_valence] else []) ++
    (if sm.repeat_listening_percentage > 30 then
      [Statement.repeatListening sm.repeat_listening_percentage] else []) ++
    (if cm.current_social_events < cm.baseline_social_events then
      [Statement.socialDecline
        ((cm.baseline_social_events - cm.current_social_events) /
          cm.baseline_social_events * 100)
        cm.baseline_social_events cm.current_social_events] else []) ++
    (if cm.declined_invitations_count > 0 then
      [Statement.declinedInvitations cm.declined_invitations_count] else []) ++
    (if cm.current_unique_contacts < cm.baseline_unique_contacts * 0.7 then
      [Statement.contactReduction cm.baseline_unique_contacts
        cm.current_unique_contacts] else [])
  if l = [] then [Statement.noPatterns] else l

/-- Rounding half to even moves a value by at most one half. -/
theorem rhe_abs_le (x : ℚ) : |(rhe x : ℚ) - x| ≤ 1 / 2 := by
  have hf : (⌊x⌋ : ℚ) ≤ x := Int.floor_le x
  have hf1 : x < ⌊x⌋ + 1 := Int.lt_floor_add_one x
  unfold rhe
  rcases lt_trichotomy (x - ⌊x⌋) (1 / 2) with h | h | h
  · rw [if_pos h, abs_le]
    constructor <;> linarith
  · rw [if_neg (by rw [h]; exact lt_irrefl _),
      if_neg (by rw [h]; exact lt_irrefl _)]
    split_ifs <;> (rw [abs_le]; push_cast; constructor <;> linarith)
  · rw [if_neg (by linarith), if_pos h, abs_le]
    push_cast
    constructor <;> linarith

/-- The neutral-fallback wrapper of the explanation generator is nonempty
and collapses to the single neutral statement exactly when the triggered
list is empty. -/
theorem neutral_wrap (L : List Statement) (hL : Statement.noPatterns ∉ L) :
    (if L = [] then [Statement.noPatterns] else L) ≠ [] ∧
    ((if L = [] then [Statement.noPatterns] else L) =
      [Statement.noPatterns] ↔ L = []) := by
  by_cases h : L = [] <;> simp [h]
  intro heq
  exact hL (heq ▸ List.mem_singleton_self _)

/-- Claim C1 (counterexample): the classifier is not total on the
non-integer scores the fuser hands it.  With neutral Spotify metrics, a
full event decline (calendar subscore 50) and a baseline prior of 5, the
unrounded composite is 25.5; `get_risk_level` receives it before any
rounding and returns "unknown", which is none of the four levels. -/
theorem C1_nonintegral_gap_counterexample :
    calculate_risk spotifyDefaultMetrics ⟨8, 0, 0, 0, 5, 5⟩ (some ⟨5⟩) =
      some ⟨26, "unknown", ⟨0, 50, 5, 51 / 2⟩,
        [Statement.socialDecline 100 8 0]⟩ ∧
    get_risk_level (51 / 2) = "unknown" ∧
    "unknown" ∉ ["low", "mild", "moderate", "high"] := by
  refine ⟨?_, ?_, by decide⟩
  · norm_num [calculate_risk, calculate_spotify_score,
      calculate_calendar_score, calculate_baseline_risk,
      spotifyDefaultMetrics, SPOTIFY_WEIGHT, CALENDAR_WEIGHT,
      BASELINE_WEIGHT, get_risk_level, generate_risk_explanation, round2,
      rhe, min_def, max_def]
  · norm_num [get_risk_level]

/-- Claim C1 (amended): on integer scores 0-100 the classification is a
total function with no gaps and no overlaps, and it is boundary-exact:
0-25 map to "low", 26-50 to "mild", 51-75 to "moderate", 76-100 to
"high" (so in particular 25→low, 26→mild, 50→mild, 51→moderate,
75→moderate, 76→high, 100→high). -/
theorem C1_integer_classification (n : ℕ) (hn : n ≤ 100) :
    get_risk_level (n : ℚ) =
      if n ≤ 25 then "low" else if n ≤ 50 then "mild"
      else if n ≤ 75 then "moderate" else "high" := by
  have h0 : (0:ℚ) ≤ (n:ℚ) := by positivity
  have h100 : (n:ℚ) ≤ 100 := by exact_mod_cast hn
  unfold get_risk_level
  by_cases h25 : n ≤ 25
  · have hq : (n:ℚ) ≤ 25 := by exact_mod_cast h25
    simp [h25, hq, h0]
  · have hq : ¬((n:ℚ) ≤ 25) := by exact_mod_cast h25
    have h26 : (26:ℚ) ≤ (n:ℚ) := by
      have : 26 ≤ n := by omega
      exact_mod_cast this
    by_cases h50 : n ≤ 50
    · have hq50 : (n:ℚ) ≤ 50 := by exact_mod_cast h50
      simp [h25, h50, hq, h26, hq50, h0]
    · have hq50 : ¬((n:ℚ) ≤ 50) := by exact_mod_cast h50
      have h51 : (51:ℚ) ≤ (n:ℚ) := by
        have : 51 ≤ n := by omega
        exact_mod_cast this
      by_cases h75 : n ≤ 75
      · have hq75 : (n:ℚ) ≤ 75 := by exact_mod_cast h75
        simp [h25, h50, h75, hq, hq50, h26, h51, hq75, h0]
      · have hq75 : ¬((n:ℚ) ≤ 75) := by exact_mod_cast h75
        have h76 : (76:ℚ) ≤ (n:ℚ) := by
          have : 76 ≤ n := by omega
          exact_mod_cast this
        simp [h25, h50, h75, hq, hq50, hq75, h26, h51, h76, h0, h100]

/-- Claim C1 witness: the amended classification theorem applied at the
boundary score 26. -/
theorem C1_integer_classification_witness :
    get_risk_level ((26 : ℕ) : ℚ) = "mild" := by
  rw [C1_integer_classification 26 (by norm_num)]
  norm_num

/-- Claim C2 (code divergence): partial factor terms are not floored at 0
before summing.  A negative late-night percentage drives the Spotify
subscore to -50 (valid zero inputs give 0), and a current event count
above baseline drives the calendar subscore to -66.67 (valid equal inputs
give 0); both are outside [0,100]. -/
theorem C2_subscore_below_zero :
    calculate_spotify_score ⟨90, 90, -100, 1 / 2, 1 / 2, 0⟩ = -50 ∧
    calculate_spotify_score ⟨90, 90, 0, 1 / 2, 1 / 2, 0⟩ = 0 ∧
    calculate_calendar_score ⟨8, 16, 0, 0, 5, 5⟩ = -6667 / 100 ∧
    calculate_calendar_score ⟨8, 8, 0, 0, 5, 5⟩ = 0 := by
  refine ⟨?_, ?_, ?_, ?_⟩ <;>
    norm_num [calculate_spotify_score, calculate_calendar_score, min_def]

/-- Claim C3 (code divergence): with a zero event baseline and a negative
current event count the social-decline trigger fires and the explanation
generator divides by the zero baseline — in Python a `ZeroDivisionError`
that aborts `calculate_risk` — so no assessment is produced (`none` in
the embedding, where the unguarded division is the only failure point). -/
theorem C3_zero_baseline_raises :
    calculate_risk spotifyDefaultMetrics ⟨0, -1, 0, 0, 5, 5⟩ none = none ∧
    generate_risk_explanation spotifyDefaultMetrics ⟨0, -1, 0, 0, 5, 5⟩
      ⟨0, 0, 10, 1⟩ = none := by
  constructor <;>
    norm_num [calculate_risk, calculate_spotify_score,
      calculate_calendar_score, calculate_baseline_risk,
      spotifyDefaultMetrics, SPOTIFY_WEIGHT, CALENDAR_WEIGHT,
      BASELINE_WEIGHT, get_risk_level, generate_risk_explanation, round2,
      rhe, min_def, max_def]

/-- Claim C4 (counterexample): for the severe-isolation scenario the
composite score is 91 and the internal level is "high", but on the
deterministic template-fallback path the intervention message is the
"high" template, which does not contain the crisis-resource substring
"988" — contradicting the claim that the payload message includes the
fixed crisis resources on that path. -/
theorem C4_crisis_template_counterexample :
    calculate_risk ⟨15, 45, 85, 7 / 10, 1 / 4, 65⟩ ⟨8, 0, 100, 0, 5, 0⟩
      none =
      some ⟨91, "high", ⟨100, 100, 10, 91⟩,
        [Statement.listeningSpike 15 45, Statement.lateNight 85,
         Statement.moodShift (7 / 10) (1 / 4), Statement.repeatListening 65,
         Statement.socialDecline 100 8 0,
         Statement.contactReduction 5 0]⟩ ∧
    hasSubstr (run_intervention (α := Unit) ⟨some "high", some 91⟩ none none
      none (Except.error ()) (Except.error ())).result.message "988" =
      false := by
  constructor
  · norm_num [calculate_risk, calculate_spotify_score,
      calculate_calendar_score, calculate_baseline_risk, SPOTIFY_WEIGHT,
      CALENDAR_WEIGHT, BASELINE_WEIGHT, get_risk_level,
      generate_risk_explanation, round2, rhe, min_def, max_def]
    simp
  · decide

/-- Claim C4 (amended): the scenario's composite is 91 ≥ 76 with internal
level "high"; `run_intervention` does select the crisis
prompt-construction path (score ≥ 76), but the template-fallback message
is the "high" template and contains no "988"; only the "critical"
template — a label the four-tier classifier never emits — contains the
crisis resources. -/
theorem C4_crisis_scenario_amended :
    (calculate_risk ⟨15, 45, 85, 7 / 10, 1 / 4, 65⟩ ⟨8, 0, 100, 0, 5, 0⟩
      none).map (fun r => (r.score, r.level)) = some (91, "high") ∧
    (run_intervention (α := Unit) ⟨some "high", some 91⟩ none none none
      (Except.error ()) (Except.error ())).prompt.isCrisisPrompt = true ∧
    (run_intervention (α := Unit) ⟨some "high", some 91⟩ none none none
      (Except.error ()) (Except.error ())).result.message =
      generate_empathetic_message "high" 91 ∧
    hasSubstr (generate_empathetic_message "high" 91) "988" = false ∧
    hasSubstr (generate_empathetic_message "critical" 91) "988" = true := by
  refine ⟨?_, by decide, by decide, by decide, by decide⟩
  norm_num [calculate_risk, calculate_spotify_score,
    calculate_calendar_score, calculate_baseline_risk, SPOTIFY_WEIGHT,
    CALENDAR_WEIGHT, BASELINE_WEIGHT, get_risk_level,
    generate_risk_explanation, round2, rhe, min_def, max_def]

/-- Claim C5: whenever `calculate_risk` produces a result, the reported
integer score is the weighted composite
`spotify*0.4 + calendar*0.5 + baseline*0.1` clamped to [0,100] and
rounded to a nearest integer (within one half, and itself in [0,100]),
and the factors retain the component values rounded to two decimals. -/
theorem C5_fusion_formula (sm : SpotifyMetrics) (cm : CalendarMetrics)
    (b : Option BaselineData) (r : RiskResult)
    (h : calculate_risk sm cm b = some r) :
    r.score = rhe (fused_total sm cm b) ∧
    |(r.score : ℚ) - fused_total sm cm b| ≤ 1 / 2 ∧
    0 ≤ r.score ∧ r.score ≤ 100 ∧
    r.factors.spotify_score = round2 (calculate_spotify_score sm) ∧
    r.factors.calendar_score = round2 (calculate_calendar_score cm) ∧
    r.factors.baseline_score = round2 (calculate_baseline_risk b) ∧
    r.factors.total_score = round2 (fused_total sm cm b) := by
  unfold calculate_risk at h
  dsimp only at h
  split at h
  · exact absurd h (by simp)
  · injection h with h
    subst h
    have h0 : (0:ℚ) ≤ fused_total sm cm b := by
      unfold fused_total
      exact le_min (by norm_num) (le_max_left 0 _)
    have h100 : fused_total sm cm b ≤ 100 := min_le_left _ _
    refine ⟨rfl, rhe_abs_le _, ?_, ?_, rfl, rfl, rfl, rfl⟩
    · have hle := (abs_le.mp (rhe_abs_le (fused_total sm cm b))).1
      have h2 : (-1 : ℚ) < (rhe (fused_total sm cm b) : ℚ) := by linarith
      have h3 : (-1 : ℤ) < rhe (fused_total sm cm b) := by exact_mod_cast h2
      show 0 ≤ rhe (fused_total sm cm b)
      omega
    · have hle := (abs_le.mp (rhe_abs_le (fused_total sm cm b))).2
      have h2 : (rhe (fused_total sm cm b) : ℚ) < 101 := by linarith
      have h3 : rhe (fused_total sm cm b) < 101 := by exact_mod_cast h2
      show rhe (fused_total sm cm b) ≤ 100
      omega

/-- Claim C5 witness: the fusion theorem applied to the all-defaults
input, whose result record is computed explicitly. -/
theorem C5_fusion_formula_witness :
    (⟨1, "low", ⟨0, 0, 10, 1⟩, [Statement.noPatterns]⟩ : RiskResult).score =
      rhe (fused_total spotifyDefaultMetrics calendarDefaultMetrics none) := by
  refine (C5_fusion_formula spotifyDefaultMetrics calendarDefaultMetrics
    none _ ?_).1
  norm_num [calculate_risk, calculate_spotify_score,
    calculate_calendar_score, calculate_baseline_risk,
    spotifyDefaultMetrics, calendarDefaultMetrics, SPOTIFY_WEIGHT,
    CALENDAR_WEIGHT, BASELINE_WEIGHT, get_risk_level,
    generate_risk_explanation, round2, rhe, min_def, max_def]

/-- Claim C6: whenever the explanation generator produces a list, that
list is exactly the spec's order-fixed, threshold-exact candidate list
(`spec_explanation`), it is never empty, and it is the single neutral
statement exactly when none of the seven triggers holds. -/
theorem C6_explanation_structure (sm : SpotifyMetrics)
    (cm : CalendarMetrics) (factors : RiskFactors) (es : List Statement)
    (h : generate_risk_explanation sm cm factors = some es) :
    es = spec_explanation sm cm ∧ es ≠ [] ∧
    (es = [Statement.noPatterns] ↔
      ¬(sm.current_listening_hours > sm.baseline_listening_hours * 1.5) ∧
      ¬(sm.late_night_percentage > 40) ∧
      ¬(sm.baseline_valence - sm.current_valence > 0.2) ∧
      ¬(sm.repeat_listening_percentage > 30) ∧
      ¬(cm.current_social_events < cm.baseline_social_events) ∧
      ¬(cm.declined_invitations_count > 0) ∧
      ¬(cm.current_unique_contacts < cm.baseline_unique_contacts * 0.7)) := by
  unfold generate_risk_explanation at h
  dsimp only at h
  split at h
  · exact absurd h (by simp)
  · injection h with h
    subst h
    have hmem : Statement.noPatterns ∉
        ((if sm.current_listening_hours > sm.baseline_listening_hours * 1.5 then
          [Statement.listeningSpike sm.baseline_listening_hours
            sm.current_listening_hours] else []) ++
        (if sm.late_night_percentage > 40 then
          [Statement.lateNight sm.late_night_percentage] else []) ++
        (if sm.baseline_valence - sm.current_valence > 0.2 then
          [Statement.moodShift sm.baseline_valence sm.current_valence]
        else []) ++
        (if sm.repeat_listening_percentage > 30 then
          [Statement.repeatListening sm.repeat_listening_percentage]
        else []) ++
        (if cm.current_social_events < cm.baseline_social_events then
          [Statement.socialDecline
            ((cm.baseline_social_events - cm.current_social_events) /
              cm.baseline_social_events * 100)
            cm.baseline_social_events cm.current_social_events] else []) ++
        (if cm.declined_invitations_count > 0 then
          [Statement.declinedInvitations cm.declined_invitations_count]
        else []) ++
        (if cm.current_unique_contacts <
            cm.baseline_unique_contacts * 0.7 then
          [Statement.contactReduction cm.baseline_unique_contacts
            cm.current_unique_contacts] else [])) := by
      intro hmem
      simp only [List.mem_append] at hmem
      rcases hmem with ((((((h1 | h1) | h1) | h1) | h1) | h1) | h1) <;>
        (revert h1; split <;> simp)
    refine ⟨rfl, (neutral_wrap _ hmem).1,
      (neutral_wrap _ hmem).2.trans ?_⟩
    simp only [List.append_eq_nil, ite_eq_right_iff, List.cons_ne_nil,
      imp_false, and_assoc]

/-- Claim C6 witness: the structure theorem applied to the all-defaults
metrics, where no trigger holds and the generator emits the neutral
statement. -/
theorem C6_explanation_structure_witness :
    [Statement.noPatterns] =
      spec_explanation spotifyDefaultMetrics calendarDefaultMetrics := by
  refine (C6_explanation_structure spotifyDefaultMetrics
    calendarDefaultMetrics ⟨0, 0, 10, 1⟩ _ ?_).1
  norm_num [generate_risk_explanation, spotifyDefaultMetrics,
    calendarDefaultMetrics]

/-- Claim C7: `run_intervention` invokes the external activity
recommender exactly when the level is not "critical" and both interests
and location are present (truthy); otherwise — and also when the
recommender raises — the activities of the payload are empty, the
action items are still the level's table, and a raising recommender
yields the very same run as one returning an empty list. -/
theorem C7_recommender_gating {α : Type} (a : Assessment)
    (interests : Option (List String)) (loc : Option String)
    (um : Option String) (tool : Except Unit (List α))
    (llm : Except Unit String) :
    ((run_intervention a interests loc um tool llm).toolInvoked = true ↔
      (a.level.getD "moderate" ≠ "critical" ∧ interests.getD [] ≠ [] ∧
        loc.getD "" ≠ "")) ∧
    ((run_intervention a interests loc um tool llm).result.activities =
      if (run_intervention a interests loc um tool llm).toolInvoked = true
      then (match tool with | .ok l => l | .error _ => []) else []) ∧
    ((run_intervention a interests loc um tool llm).result.action_items =
      action_items_for (a.level.getD "moderate")) ∧
    run_intervention a interests loc um (Except.error ()) llm =
      run_intervention a interests loc um (Except.ok ([] : List α)) llm := by
  unfold run_intervention recommend_activities
  dsimp only
  by_cases hc : a.level.getD "moderate" = "critical" <;>
  by_cases hi : interests.getD [] = ([] : List String) <;>
  by_cases hl : loc.getD "" = "" <;>
  rcases tool with l | u <;>
  simp [hc, hi, hl]

/-- Claim C8: the crisis prompt-construction path is selected exactly
when the assessment's numeric score (defaulting to 50 when absent) is at
least 76, and the selected prompt does not depend on the textual level
label at all. -/
theorem C8_crisis_prompt_threshold {α : Type} (a : Assessment)
    (interests : Option (List String)) (loc : Option String)
    (um : Option String) (tool : Except Unit (List α))
    (llm : Except Unit String) :
    ((run_intervention a interests loc um tool llm).prompt.isCrisisPrompt =
      true ↔ 76 ≤ a.score.getD 50) ∧
    (∀ lvl₁ lvl₂ : Option String,
      (run_intervention (α := α) ⟨lvl₁, a.score⟩ interests loc um tool
        llm).prompt =
      (run_intervention (α := α) ⟨lvl₂, a.score⟩ interests loc um tool
        llm).prompt) := by
  constructor
  · unfold run_intervention
    dsimp only
    by_cases h76 : (76:ℚ) ≤ a.score.getD 50 <;>
      simp [h76, PromptContext.isCrisisPrompt]
  · intro lvl₁ lvl₂
    rfl

/-- Claim C9: with no tokens (both sources neutral-defaulted, whatever
the analyzer oracles would have returned) and no baseline prior, the
detection pipeline reports score 1 — positive, at most 10 — with level
"low". -/
theorem C9_no_data_low (sf : Except Unit SpotifyMetrics)
    (cf : Except Unit CalendarMetrics) :
    ∃ r, run_detection none none none sf cf = some r ∧
      r.score = 1 ∧ 0 < r.score ∧ r.score ≤ 10 ∧ r.level = "low" ∧
      r.factors.total_score = 1 := by
  refine ⟨⟨1, "low", ⟨0, 0, 10, 1⟩, [Statement.noPatterns]⟩, ?_,
    rfl, by norm_num, by norm_num, rfl, rfl⟩
  unfold run_detection
  norm_num [calculate_risk, calculate_spotify_score,
    calculate_calendar_score, calculate_baseline_risk,
    spotifyDefaultMetrics, calendarDefaultMetrics, SPOTIFY_WEIGHT,
    CALENDAR_WEIGHT, BASELINE_WEIGHT, get_risk_level,
    generate_risk_explanation, round2, rhe, min_def, max_def]

/-- Claim C10: any level label outside the five handled ones — such as
"mild", which the four-tier classifier emits for scores 26-50 — matches
no action-item branch (empty list) and falls back to the "moderate"
template message, in both `run_intervention` (on the template-fallback
path) and `generate_intervention_strategy`. -/
theorem C10_unknown_level_fallback {α : Type} (lvl : String)
    (h : lvl ∉ ["low", "moderate", "elevated", "high", "critical"])
    (score : ℚ) (interests : Option (List String)) (loc : Option String)
    (um : Option String) (tool : Except Unit (List α)) :
    (run_intervention ⟨some lvl, some score⟩ interests loc um tool
      (Except.error ())).result.action_items = [] ∧
    (run_intervention ⟨some lvl, some score⟩ interests loc um tool
      (Except.error ())).result.message =
      generate_empathetic_message "moderate" score ∧
    (generate_intervention_strategy ⟨some lvl, some score⟩ interests loc
      tool).1.action_items = [] ∧
    (generate_intervention_strategy ⟨some lvl, some score⟩ interests loc
      tool).1.message = generate_empathetic_message "moderate" score := by
  simp only [List.mem_cons, List.mem_singleton, not_or] at h
  obtain ⟨h1, h2, h3, h4, h5⟩ := h
  unfold run_intervention generate_intervention_strategy
    generate_empathetic_message interventionMessages action_items_for
  dsimp only
  simp [h1, h2, h3, h4, h5]

/-- Claim C10 witness: the fallback theorem applied to the label "mild"
that the internal classifier produces. -/
theorem C10_unknown_level_fallback_witness :
    (run_intervention (α := Unit) ⟨some "mild", some 30⟩ none none none
      (Except.error ()) (Except.error ())).result.action_items = [] := by
  exact (C10_unknown_level_fallback "mild" (by decide) 30 none none none
    (Except.error ())).1

end RiskEngine
